import Mathlib

/-!
Shallow embedding of the pg-event-server repository (Rust) for checking its
natural-language specification.  Each definition mirrors one function or data
type of the source; theorems settle the frozen claims C1..C10.

Conventions: Rust `i32` pids are modelled as `Int` (no arithmetic is performed
on them, so overflow is irrelevant); `HashSet<String>` is modelled as a
duplicate-free `List String` built with an insert that skips existing elements
(hash order is unobservable in the source); fallible Rust functions returning
`Result` are modelled with `Except String`.
-/

namespace PgEventServer

/-! ## Events and dispatch (src/pg-event-server/src/events.rs) -/

/-- Mirrors `Notification` of the pg-event-listener crate: channel name,
payload and the backend process id of the notifying session. -/
structure Notification where
  channel : String
  payload : String
  process_id : Int
deriving Repr, DecidableEq

/-- Mirrors `PgNotificationDispatch` (src/pg-event-server/src/pool.rs): a raw
notification tagged with the `dispatch_id` of the producing session. -/
structure PgNotificationDispatch where
  notification : Notification
  dispatch_id : Int
deriving Repr, DecidableEq

/-- Mirrors `Channel` (events.rs lines 82-89): a configured logical channel
bound at runtime to the session it was assigned to. -/
structure Channel where
  id : String
  events : List String
  dispatch_id : Int
deriving Repr, DecidableEq

/-- Mirrors `Channel::is_listening_for` (events.rs lines 106-108):
`self.dispatch_id == dispatch_id && self.events.iter().any(|e| *e == event)`. -/
def Channel.is_listening_for (c : Channel) (dispatch_id : Int) (event : String) : Bool :=
  c.dispatch_id == dispatch_id && c.events.any (fun e => e == event)

/-- Mirrors `Event` (events.rs lines 37-43).  `ChanIds::One`/`ChanIds::Many`
are exposed by the source only through the slice accessor `Event::channels`,
so the container is modelled as the underlying list of channel indices. -/
structure Event where
  id : String
  event : String
  session : Int
  payload : String
  channels : List Nat
deriving Repr, DecidableEq

/-- Mirrors the candidate-channel computation of `EventDispatch::dispatch`
(events.rs lines 179-182): indices of channels whose `is_listening_for`
accepts the `(dispatch_id, event)` pair. -/
def dispatchMatches (channels : List Channel) (dispatch_id : Int) (event : String) : List Nat :=
  channels.enum.filterMap fun ic =>
    if ic.2.is_listening_for dispatch_id event then some ic.1 else none

/-- Mirrors one iteration of the dispatch loop (events.rs lines 172-201):
if the candidate set is empty the notification is logged as unprocessed and
discarded (`none`); otherwise an `Event` is built (via `Event::new`,
events.rs lines 47-55) with the freshly generated uuid `uuid` and the
candidate indices. -/
def dispatchStep (channels : List Channel) (uuid : String) (d : PgNotificationDispatch) :
    Option Event :=
  match dispatchMatches channels d.dispatch_id d.notification.channel with
  | [] => none
  | ids =>
    some { id := uuid
           event := d.notification.channel
           session := d.notification.process_id
           payload := d.notification.payload
           channels := ids }

/-- Modelled from the spec: the match set the specification prescribes,
the set of indices i such that `channels[i].dispatch_id == dispatch_id` and
(`allowed_events` empty or `event` in `allowed_events`), used to compare the
source's computation with
the specified one. -/
def specMatches (channels : List Channel) (dispatch_id : Int) (event : String) : List Nat :=
  channels.enum.filterMap fun ic =>
    if ic.2.dispatch_id = dispatch_id ∧ (ic.2.events = [] ∨ event ∈ ic.2.events)
    then some ic.1 else none

/-! ## SSE frame construction (src/pg-event-server/src/subscribe.rs) -/

/-- Model of `actix_web_lab::sse::Data`: a data frame with optional id and
event fields, built by `sse::Data::new(..).id(..).event(..)`. -/
structure SseData where
  data : String
  id : Option String
  event : Option String
deriving Repr, DecidableEq

/-- Model of `sse::Data::new`: sets the data field, id and event unset. -/
def sseDataNew (payload : String) : SseData :=
  { data := payload, id := none, event := none }

/-- Model of `sse::Data::id`. -/
def SseData.setId (d : SseData) (i : String) : SseData :=
  { d with id := some i }

/-- Model of `sse::Data::event`. -/
def SseData.setEvent (d : SseData) (e : String) : SseData :=
  { d with event := some e }

/-- Mirrors the frame built by `Broadcaster::send_event` (subscribe.rs lines
162-168): `sse::Data::new(event.payload()).id(event.id()).event(event.event())`. -/
def sendEventFrame (e : Event) : SseData :=
  ((sseDataNew e.payload).setId e.id).setEvent e.event

/-! ## Worker count (src/pg-event-server/src/config.rs, main.rs) -/

/-- Mirrors the `num_workers` part of `Server::sanitize` (config.rs lines
85-89): a configured value of 0 is turned into `None`. -/
def sanitizeNumWorkers (n : Option Nat) : Option Nat :=
  match n with
  | some 0 => none
  | other => other

/-- Mirrors the worker-count computation of `main` (main.rs lines 119-122)
applied after sanitization:
`settings.server.num_workers.unwrap_or_else(num_cpus::get_physical)`. -/
def effectiveNumWorkers (num_workers : Option Nat) (physicalCpus : Nat) : Nat :=
  (sanitizeNumWorkers num_workers).getD physicalCpus

/-- Modelled from the spec: the default worker count the specification and the
doc comment of `Server::num_workers` (config.rs lines 58-60) prescribe, half
the number of physical CPUs with a minimum of 1. -/
def specDefaultWorkers (physicalCpus : Nat) : Nat :=
  max (physicalCpus / 2) 1

/-! ## Settings loading and validation (src/pg-event-server/src/config.rs) -/

/-- Mirrors `ChannelConfig` (config.rs lines 108-119). -/
structure ChannelConfig where
  id : String
  allowed_events : List String
  connection_string : Option String
deriving Repr, DecidableEq

/-- Model of `str::trim_start_matches('/')`: remove every leading slash,
expressed on the character list of the string. -/
def trimLeadingSlashes (s : String) : String :=
  ⟨s.data.dropWhile (fun ch => ch = '/')⟩

/-- Mirrors `ChannelConfig::sanitize` (config.rs lines 122-124):
`self.id = self.id.trim_start_matches('/')`, i.e. all leading slashes of the
id are removed. -/
def ChannelConfig.sanitize (c : ChannelConfig) : ChannelConfig :=
  { c with id := trimLeadingSlashes c.id }

/-- Mirrors the duplicate-id loop of `Settings::validate` (config.rs lines
173-181): walk the channels keeping the set of ids seen so far; fail on the
first id already present.  The `HashSet<&str>` is modelled as a list. -/
def checkDuplicateIds : List ChannelConfig → List String → Except String Unit
  | [], _ => .ok ()
  | c :: rest, idents =>
    if c.id ∈ idents then .error ("Duplicated channel id: " ++ c.id)
    else checkDuplicateIds rest (c.id :: idents)

/-- Mirrors `Settings::validate` (config.rs lines 172-188) restricted to its
channel-id check (the `postgres_tls` validation is independent of channel
ids and does not touch them). -/
def validateSettings (channels : List ChannelConfig) : Except String (List ChannelConfig) :=
  (checkDuplicateIds channels []).map (fun _ => channels)

/-- Mirrors the configuration-loading pipeline of `Settings::from_file`
(config.rs lines 218-254): `Settings::build` sanitizes and validates the
channels deserialized from the main TOML file, and only then
`read_channel_configs` appends the `[[channel]]` arrays of the companion
`<conf_stem>.d/*.toml` files, without sanitizing or validating them.
`mainChannels` are the channels of the main file, `dropinSets` the channel
arrays of the companion files in scan order. -/
def settingsFromFile (mainChannels : List ChannelConfig)
    (dropinSets : List (List ChannelConfig)) : Except String (List ChannelConfig) :=
  (validateSettings (mainChannels.map ChannelConfig.sanitize)).map
    (fun cs => cs ++ dropinSets.flatten)

/-! ## Connection configuration (src/pg-config/src/lib.rs) -/

/-- Model of `tokio_postgres::config::SslMode` (the subset handled by
`parse_ssl_mode`). -/
inductive SslMode where
  | disable
  | prefer
  | require
deriving Repr, DecidableEq

/-- Model of `tokio_postgres::config::ChannelBinding`. -/
inductive ChannelBindingMode where
  | disable
  | prefer
  | require
deriving Repr, DecidableEq

/-- Model of `tokio_postgres::Config` restricted to the fields read or
written by the repository: getters `get_user`, `get_password`, `get_dbname`,
`get_options`, `get_hosts`, `get_ports`, `get_connect_timeout` and the
setters used by `set_parameter`.  Durations are modelled by their number of
seconds. -/
structure PgConfig where
  user : Option String
  password : Option String
  dbname : Option String
  options : Option String
  application_name : Option String
  hosts : List String
  ports : List Nat
  connect_timeout : Option Nat
  ssl_mode : SslMode
  keepalives : Bool
  keepalives_idle : Nat
  channel_binding : ChannelBindingMode
deriving Repr, DecidableEq

/-- Model of `tokio_postgres::Config::new` with the defaults of the crate. -/
def PgConfig.new : PgConfig :=
  { user := none
    password := none
    dbname := none
    options := none
    application_name := none
    hosts := []
    ports := []
    connect_timeout := none
    ssl_mode := .prefer
    keepalives := true
    keepalives_idle := 7200
    channel_binding := .prefer }

/-- Mirrors `parse_ssl_mode` (lib.rs lines 204-211). -/
def parse_ssl_mode (mode : String) : Except String SslMode :=
  match mode with
  | "disable" => .ok .disable
  | "prefer" => .ok .prefer
  | "require" => .ok .require
  | _ => .error ("InvalidSslMode: " ++ mode)

/-- Mirrors `parse_channel_binding` (lib.rs lines 213-220). -/
def parse_channel_binding (mode : String) : Except String ChannelBindingMode :=
  match mode with
  | "disable" => .ok .disable
  | "prefer" => .ok .prefer
  | "require" => .ok .require
  | _ => .error ("InvalidChannelBinding: " ++ mode)

/-- Model of Rust's `str::parse` to an unsigned integer: the string must be
non-empty and all digits (the optional leading plus sign accepted by the
Rust parser is omitted; the claims depend only on parse success or
failure). -/
def parseDecimal (s : String) : Option Nat :=
  if s.data.isEmpty then none
  else if s.data.all Char.isDigit then
    some (s.data.foldl (fun n c => n * 10 + (c.toNat - 48)) 0)
  else none

/-- Mirrors `set_parameter` (lib.rs lines 203-289).  Rust's `str::parse` to an
unsigned integer is modelled by `parseDecimal`.  The keys `user`,
`password`, `dbname`, `options`, `host`/`hostaddr`, `port` and
`connect_timeout` set the field only when it is still unset; `sslmode`,
`keepalives`, `keepalives_idle` and `channel_binding` always overwrite;
every other key (including `application_name`) falls through unchanged. -/
def set_parameter (config : PgConfig) (k v : String) : Except String PgConfig :=
  match k with
  | "user" =>
    .ok (if config.user.isNone then { config with user := some v } else config)
  | "password" =>
    .ok (if config.password.isNone then { config with password := some v } else config)
  | "dbname" =>
    .ok (if config.dbname.isNone then { config with dbname := some v } else config)
  | "options" =>
    .ok (if config.options.isNone then { config with options := some v } else config)
  | "host" =>
    .ok (if config.hosts.isEmpty then { config with hosts := [v] } else config)
  | "hostaddr" =>
    .ok (if config.hosts.isEmpty then { config with hosts := [v] } else config)
  | "port" =>
    if config.ports.isEmpty then
      match parseDecimal v with
      | some p => .ok { config with ports := [p] }
      | none => .error ("InvalidPort: " ++ v)
    else .ok config
  | "connect_timeout" =>
    if config.connect_timeout.isNone then
      match parseDecimal v with
      | some secs => .ok { config with connect_timeout := some secs }
      | none => .error ("InvalidConnectTimeout: " ++ v)
    else .ok config
  | "sslmode" =>
    (parse_ssl_mode v).map (fun m => { config with ssl_mode := m })
  | "keepalives" =>
    match v with
    | "1" => .ok { config with keepalives := true }
    | "0" => .ok { config with keepalives := false }
    | _ => .error ("InvalidKeepalives: " ++ v)
  | "keepalives_idle" =>
    match parseDecimal v with
    | some secs => .ok { config with keepalives_idle := secs }
    | none => .error ("InvalidKeepalivesIdle: " ++ v)
  | "channel_binding" =>
    (parse_channel_binding v).map (fun m => { config with channel_binding := m })
  | _ => .ok config

/-- Mirrors the static `ENV` table of `load_config_from_env` (lib.rs lines
184-192): environment variable name paired with the `set_parameter` key. -/
def envTable : List (String × String) :=
  [("PGHOST", "host"),
   ("PGPORT", "port"),
   ("PGDATABASE", "dbname"),
   ("PGUSER", "user"),
   ("PGOPTIONS", "options"),
   ("PGAPPNAME", "application_name"),
   ("PGCONNECT_TIMEOUT", "connect_timeout")]

/-- Mirrors `load_config_from_env` (lib.rs lines 183-201): for each table
entry whose environment variable is present, apply `set_parameter`; the
process environment is modelled as a lookup function. -/
def load_config_from_env (env : String → Option String) (config : PgConfig) :
    Except String PgConfig :=
  envTable.foldlM
    (fun cfg p =>
      match env p.1 with
      | some v => set_parameter cfg p.2 v
      | none => .ok cfg)
    config

/-! ## Listener sessions (src/pg-event-listener/src/dispatcher.rs) -/

/-- Mirrors the state of `PgEventDispatcher` (dispatcher.rs lines 18-24):
connection configuration, backend pid of the live connection, and the set of
currently listened event names (a `HashSet<String>`, modelled as a
duplicate-free list). -/
structure PgEventDispatcher where
  config : PgConfig
  session_pid : Int
  events : List String
deriving Repr, DecidableEq

/-- Set-like insert mirroring `HashSet::insert`: the element is added only
when absent. -/
def insertEvent (evs : List String) (e : String) : List String :=
  if e ∈ evs then evs else evs ++ [e]

/-- Outcome of `PgEventDispatcher::connect` (dispatcher.rs lines 28-81).
The network interaction is external; the outcome is injected: either the
backend pid that `SELECT pg_backend_pid()` returned for the fresh
connection, or a connection failure. -/
inductive ConnectOutcome where
  | ok (session_pid : Int)
  | fail
deriving Repr, DecidableEq

/-- Mirrors the state produced by `PgEventDispatcher::connect` for a given
outcome: a fresh dispatcher starts with an empty listened set. -/
def connectModel (config : PgConfig) (outcome : ConnectOutcome) :
    Except Unit PgEventDispatcher :=
  match outcome with
  | .ok pid => .ok { config := config, session_pid := pid, events := [] }
  | .fail => .error ()

/-- Mirrors the state effect of `PgEventDispatcher::batch_listen`
(dispatcher.rs lines 102-118): the listened set is extended with every name
of the iterator (the concatenated `LISTEN` query itself is external). -/
def batch_listen (d : PgEventDispatcher) (evs : List String) : PgEventDispatcher :=
  { d with events := evs.foldl insertEvent d.events }

/-- Mirrors the state effect of `PgEventDispatcher::listen` (dispatcher.rs
lines 84-90): on query success the name is inserted into the listened set. -/
def listen (d : PgEventDispatcher) (event : String) : PgEventDispatcher :=
  { d with events := insertEvent d.events event }

/-- Mirrors `PgEventDispatcher::respawn` (dispatcher.rs lines 121-130):
`self.events.drain()` empties the listened set and keeps the drained names;
then `Self::connect` runs with the same config and the same sender; on
failure the function returns early (with the set already drained), on
success `*self` is the fresh dispatcher and `batch_listen` re-issues the
drained names.  Returns the resulting state and whether respawn succeeded. -/
def respawn (d : PgEventDispatcher) (outcome : ConnectOutcome) :
    PgEventDispatcher × Bool :=
  let evs := d.events
  let drained : PgEventDispatcher := { d with events := [] }
  match connectModel d.config outcome with
  | .error _ => (drained, false)
  | .ok fresh => (batch_listen fresh evs, true)

/-! ## Pool and forwarder tasks (src/pg-event-server/src/pool.rs) -/

/-- Mirrors a pool entry together with its forwarder task as spawned by
`Pool::start_dispatcher` (pool.rs lines 86-114): the closure of the spawned
task captures `dispatch_id = dispatcher.session_pid()` by value at creation
time; the dispatcher state may later be replaced by `respawn`, the captured
tag cannot. -/
structure SessionEntry where
  dispatcher : PgEventDispatcher
  fwd_dispatch_id : Int
deriving Repr, DecidableEq

/-- Mirrors `Pool::start_dispatcher` for a given connect pid: the forwarder
tag is the session pid of the freshly connected dispatcher. -/
def start_dispatcher (config : PgConfig) (pid : Int) : SessionEntry :=
  let d : PgEventDispatcher := { config := config, session_pid := pid, events := [] }
  { dispatcher := d, fwd_dispatch_id := d.session_pid }

/-- Mirrors the body of the forwarder task (pool.rs lines 98-112): each raw
notification received from the session is wrapped with the captured
`dispatch_id` and forwarded. -/
def forwardTag (s : SessionEntry) (n : Notification) : PgNotificationDispatch :=
  { notification := n, dispatch_id := s.fwd_dispatch_id }

/-- Respawn of a pool entry during `Pool::reconnect` (pool.rs lines 53-83):
`dispatcher.respawn(tls)` replaces the dispatcher state; the forwarder task
(and its captured tag) is not touched. -/
def respawnEntry (s : SessionEntry) (outcome : ConnectOutcome) : SessionEntry × Bool :=
  let r := respawn s.dispatcher outcome
  ({ s with dispatcher := r.1 }, r.2)

/-- Mirrors `Pool::use_same_connection` (pool.rs lines 161-166): two
configurations target the same session when hosts, dbname and user agree. -/
def use_same_connection (d : PgEventDispatcher) (config : PgConfig) : Bool :=
  d.config.hosts == config.hosts
    && d.config.dbname == config.dbname
    && d.config.user == config.user

/-- Mirrors the inner `listen` helper of `Pool::add_connection` (pool.rs
lines 122-127): issue `LISTEN` for every allowed event of the channel. -/
def listenAll (d : PgEventDispatcher) (events : List String) : PgEventDispatcher :=
  events.foldl listen d

/-- Mirrors `Pool::add_connection` (pool.rs lines 120-157) with the resolved
`pgconfig` and the connect outcome injected.  The pool is scanned for the
first dispatcher with the same connection; if found, the channel's events
are listened on it and its pid is returned; otherwise a new dispatcher is
started (pid `freshPid`), the events are listened on it, and it is pushed at
the end of the pool. -/
def add_connection : List PgEventDispatcher → PgConfig → List String → Int →
    List PgEventDispatcher × Int
  | [], pgconfig, events, freshPid =>
    let d := listenAll (start_dispatcher pgconfig freshPid).dispatcher events
    ([d], freshPid)
  | d :: rest, pgconfig, events, freshPid =>
    if use_same_connection d pgconfig then
      (listenAll d events :: rest, d.session_pid)
    else
      let r := add_connection rest pgconfig events freshPid
      (d :: r.1, r.2)

/-! ## Broadcaster (src/pg-event-server/src/subscribe.rs) -/

/-- Mirrors the subscriber `Channel` of subscribe.rs (lines 25-34) restricted
to the fields the subscription table logic reads: the subscription `ChanId`
and the `ident` uuid used as reap key.  The remaining fields (path, sender,
addresses, client id) are only read for logging and by the SSE transport. -/
structure Client where
  id : Nat
  ident : Nat
deriving Repr, DecidableEq

/-- Subscription table `subs: HashMap<ChanId, Vec<Channel>>`, modelled as a
total function from `ChanId` to the bucket of clients (a missing key reads
as the empty bucket, and inserting into a missing key creates it, as with
the hash map). -/
def Subs := Nat → List Client

/-- Mirrors `Broadcaster::broadcast_event` (subscribe.rs lines 194-234) with
the outcome of each SSE send injected as a function of the client's ident
(`send_event` returns `Some(ident)` exactly on send failure).  First the
idents of all failed sends to clients of the buckets listed in
`evchannels` are collected; if any, each listed bucket retains only the
clients whose ident is not among the failed ones.  `failedIdents` is the
`res` set of the source (the idents returned by the failing `send_event`
calls over all clients of the listed buckets); `broadcast_event` is the
conditional clean-up pass. -/
def failedIdents (subs : Subs) (evchannels : List Nat) (sendOk : Nat → Bool) : List Nat :=
  ((evchannels.flatMap (fun c => subs c)).filter (fun ch => ! sendOk ch.ident)).map
    (fun ch => ch.ident)

/-- Clean-up pass of `Broadcaster::broadcast_event` (subscribe.rs lines
219-233), see `failedIdents`. -/
def broadcast_event (subs : Subs) (evchannels : List Nat) (sendOk : Nat → Bool) : Subs :=
  if (failedIdents subs evchannels sendOk).isEmpty then subs
  else fun c =>
    if evchannels.contains c then
      (subs c).filter (fun ch => ! (failedIdents subs evchannels sendOk).contains ch.ident)
    else subs c

/-- Mirrors `Broadcaster::resolve_pending_subscriptions` (subscribe.rs lines
143-158): the pending list is emptied and each pending client is pushed at
the end of the bucket of its `ChanId`. -/
def resolve_pending (subs : Subs) (pending : List Client) : Subs :=
  fun c => subs c ++ pending.filter (fun ch => ch.id == c)

/-- Mirrors one full cycle of `Broadcaster::broadcast` (subscribe.rs lines
237-242): broadcast the event, then resolve the pending subscriptions;
returns the new table and the new (empty) pending list. -/
def broadcastCycle (subs : Subs) (pending : List Client) (evchannels : List Nat)
    (sendOk : Nat → Bool) : Subs × List Client :=
  (resolve_pending (broadcast_event subs evchannels sendOk) pending, [])

/-! ## Subscribe handler (src/pg-event-server/src/subscribe.rs) -/

/-- Model of `http::HeaderValue::to_str` (external collaborator, modelled
from its documented contract): yields the value only when every byte is
visible ASCII (or horizontal tab); otherwise it errors. -/
def headerToStr (bytes : List Nat) : Option (List Nat) :=
  if bytes.all (fun b => (32 ≤ b && b < 127) || b == 9) then some bytes else none

/-- Mirrors the `client_id` extraction of `Broadcaster::new_channel`
(subscribe.rs lines 91-94):
`req.headers().get("X-Identity").map(|s| s.to_str().unwrap().into())`.
The result `none` models the panic of `unwrap` when `to_str` errors. -/
def newChannelClientId (header : Option (List Nat)) : Option (Option (List Nat)) :=
  match header with
  | none => some none
  | some bytes =>
    match headerToStr bytes with
    | some s => some (some s)
    | none => none

/-- Mirrors `Broadcaster::do_subscribe` (subscribe.rs lines 60-67) followed by
`new_channel`: look the path id up in `allowed_subscriptions`; a miss yields
the `SubscriptionNotFound` error response; a hit runs `new_channel`, whose
only fallible step on the modelled state is the `client_id` extraction.
The outer `none` models a panic; `some` is a returned response, carrying
either the subscribed `ChanId` or the error. -/
def do_subscribe (allowed : List (String × Nat)) (pathId : String)
    (header : Option (List Nat)) : Option (Except Unit Nat) :=
  match allowed.lookup pathId with
  | none => some (.error ())
  | some chanId =>
    match newChannelClientId header with
    | none => none
    | some _ => some (.ok chanId)

/-! ## Frame predicate for environment loading (claim C7) -/

/-- Frame property of `load_config_from_env`: every connection field that was
already set in `a` (user, password, dbname, options, hosts, ports,
connect_timeout) has the same value in `b`, and `application_name` is
untouched unconditionally (its `set_parameter` key falls through to the
default arm). -/
def EnvPreserved (a b : PgConfig) : Prop :=
  (a.user.isSome → b.user = a.user)
  ∧ (a.password.isSome → b.password = a.password)
  ∧ (a.dbname.isSome → b.dbname = a.dbname)
  ∧ (a.options.isSome → b.options = a.options)
  ∧ (a.hosts ≠ [] → b.hosts = a.hosts)
  ∧ (a.ports ≠ [] → b.ports = a.ports)
  ∧ (a.connect_timeout.isSome → b.connect_timeout = a.connect_timeout)
  ∧ b.application_name = a.application_name

/-! ## Concrete fixtures used by the witness theorems -/

/-- Connection configuration resolving to hosts `db1`, dbname `shop`, user
`app`. -/
def cfgPoolW : PgConfig :=
  { PgConfig.new with hosts := ["db1"], dbname := some "shop", user := some "app" }

/-- Connection configuration with every environment-settable field already
set. -/
def cfgAllSetW : PgConfig :=
  { user := some "u"
    password := some "pw"
    dbname := some "db"
    options := some "o"
    application_name := some "app"
    hosts := ["h"]
    ports := [5432]
    connect_timeout := some 5
    ssl_mode := .disable
    keepalives := false
    keepalives_idle := 3
    channel_binding := .disable }

/-- Environment with `PGHOST` and `PGUSER` present. -/
def envW : String → Option String :=
  fun name =>
    if name == "PGHOST" then some "h2"
    else if name == "PGUSER" then some "u2"
    else none

/-- Subscription table with two clients (idents 1 and 2) in bucket 0. -/
def subsW : Subs :=
  fun c => if c == 0 then [{ id := 0, ident := 1 }, { id := 0, ident := 2 }] else []

/-- Pending list with one client (ident 3) for bucket 1. -/
def pendW : List Client := [{ id := 1, ident := 3 }]

/-- Send outcome: the send to ident 2 fails, every other send succeeds. -/
def okW : Nat → Bool := fun i => ! (i == 2)

/-! ## Theorems settling the claims -/

/-- Claim C1, behavior of the code at the failing input: a logical channel
configured with empty `allowed_events` on session 1 receives a notification
for event `foo` on session 1.  The specified match set is the singleton
index 0, so an Event with channels `[0]` should be emitted; the dispatch
loop of the source, whose `Channel::is_listening_for` has no empty-set
clause, finds no candidate and discards the notification. -/
theorem C1_empty_allowed_events_matches_nothing :
    dispatchStep [{ id := "chan", events := [], dispatch_id := 1 }] "u"
        { notification := { channel := "foo", payload := "p", process_id := 42 }
          dispatch_id := 1 }
      = none
    ∧ specMatches [{ id := "chan", events := [], dispatch_id := 1 }] 1 "foo" = [0] := by
  exact ⟨rfl, by decide⟩

/-- Claim C2, behavior of the code at the failing input: a main file with one
channel id `a` and one companion drop-in file with the same id `a` is
accepted by `Settings::from_file` with the duplicated id, although
`Settings::validate` rejects exactly that channel list; and a drop-in id
`/x` keeps its leading slash. -/
theorem C2_dropin_channels_bypass_validation :
    settingsFromFile [{ id := "a", allowed_events := [], connection_string := none }]
        [[{ id := "a", allowed_events := [], connection_string := none }]]
      = .ok [{ id := "a", allowed_events := [], connection_string := none },
             { id := "a", allowed_events := [], connection_string := none }]
    ∧ validateSettings [{ id := "a", allowed_events := [], connection_string := none },
                        { id := "a", allowed_events := [], connection_string := none }]
      = .error ("Duplicated channel id: a")
    ∧ settingsFromFile [] [[{ id := "/x", allowed_events := [], connection_string := none }]]
      = .ok [{ id := "/x", allowed_events := [], connection_string := none }] := by
  refine ⟨?_, ?_, ?_⟩ <;> rfl

/-- Claim C3, behavior of the code at the failing input: a session holding the
listen set `[foo]` goes through a failed respawn; `respawn` drains the set
before the fallible reconnect, so after the failure the remembered set is
empty, and a later successful respawn re-issues the empty set instead of
`[foo]`. -/
theorem C3_failed_respawn_drops_listen_set :
    (respawn { config := PgConfig.new, session_pid := 10, events := ["foo"] } .fail).1.events
      = []
    ∧ (respawn
        (respawn { config := PgConfig.new, session_pid := 10, events := ["foo"] } .fail).1
        (.ok 11)).1.events
      = [] := by
  exact ⟨rfl, rfl⟩

/-- Claim C5: a forwarder task tags every notification with the dispatch id
captured at its creation (the session pid of the fresh connection); a
respawn of the session leaves the captured tag unchanged, hence the
dispatcher computes the same candidate set for a fixed event name before
and after the respawn. -/
theorem C5_dispatch_tag_stable_across_respawn
    (s : SessionEntry) (outcome : ConnectOutcome) (n : Notification)
    (channels : List Channel) (event : String) (config : PgConfig) (pid : Int) :
    (forwardTag (start_dispatcher config pid) n).dispatch_id
        = (start_dispatcher config pid).dispatcher.session_pid
    ∧ (forwardTag (respawnEntry s outcome).1 n).dispatch_id
        = (forwardTag s n).dispatch_id
    ∧ dispatchMatches channels (forwardTag (respawnEntry s outcome).1 n).dispatch_id event
        = dispatchMatches channels (forwardTag s n).dispatch_id event :=
  ⟨rfl, rfl, rfl⟩

/-- Claim C8: the SSE frame emitted for an event carries the event's id as the
frame id, the event's Postgres channel name as the frame event field and
the notification payload as the frame data, unchanged. -/
theorem C8_sse_frame_roundtrip (e : Event) :
    (sendEventFrame e).id = some e.id
    ∧ (sendEventFrame e).event = some e.event
    ∧ (sendEventFrame e).data = e.payload :=
  ⟨rfl, rfl, rfl⟩

/-- Claim C9, behavior of the code at the failing input: with `num_workers`
absent (or configured as 0, which sanitization turns into absent) and 4
physical CPUs, `main` starts 4 workers, whereas the documented default is
`max (4 / 2) 1 = 2`. -/
theorem C9_default_workers_not_halved :
    effectiveNumWorkers none 4 = 4
    ∧ effectiveNumWorkers (some 0) 4 = 4
    ∧ specDefaultWorkers 4 = 2 :=
  ⟨rfl, rfl, rfl⟩

/-- Claim C10, behavior of the code at the failing input: a subscribe request
for the allowed id `orders` carrying an `X-Identity` header whose single
byte 255 is not visible ASCII makes `new_channel` panic on
`to_str().unwrap()` (modelled by `none`), while the same request without
the header returns the SSE response. -/
theorem C10_non_ascii_identity_header_has_no_response :
    do_subscribe [("orders", 0)] "orders" (some [255]) = none
    ∧ do_subscribe [("orders", 0)] "orders" none = some (.ok 0) := by
  exact ⟨rfl, rfl⟩

theorem listenAll_config (evs : List String) (d : PgEventDispatcher) :
    (listenAll d evs).config = d.config ∧ (listenAll d evs).session_pid = d.session_pid := by
  induction evs generalizing d with
  | nil => exact ⟨rfl, rfl⟩
  | cons e rest ih => exact ⟨(ih (listen d e)).1, (ih (listen d e)).2⟩

theorem use_same_connection_congr (d : PgEventDispatcher) (c1 c2 : PgConfig)
    (hh : c1.hosts = c2.hosts) (hd : c1.dbname = c2.dbname) (hu : c1.user = c2.user) :
    use_same_connection d c1 = use_same_connection d c2 := by
  simp [use_same_connection, hh, hd, hu]

theorem add_connection_no_match :
    ∀ (pool : List PgEventDispatcher) (cfg : PgConfig) (evs : List String) (fresh : Int),
      (∀ d ∈ pool, use_same_connection d cfg = false) →
      add_connection pool cfg evs fresh
        = (pool ++ [listenAll { config := cfg, session_pid := fresh, events := [] } evs],
           fresh)
  | [], _, _, _, _ => rfl
  | d :: rest, cfg, evs, fresh, h => by
    have hd : use_same_connection d cfg = false := h d (List.mem_cons_self d rest)
    have ih := add_connection_no_match rest cfg evs fresh
      (fun x hx => h x (List.mem_cons_of_mem d hx))
    simp [add_connection, hd, ih]

theorem add_connection_match_at_end :
    ∀ (pool : List PgEventDispatcher) (newd : PgEventDispatcher) (cfg : PgConfig)
      (evs : List String) (fresh : Int),
      (∀ d ∈ pool, use_same_connection d cfg = false) →
      use_same_connection newd cfg = true →
      add_connection (pool ++ [newd]) cfg evs fresh
        = (pool ++ [listenAll newd evs], newd.session_pid)
  | [], newd, cfg, evs, fresh, _, hm => by
    simp [add_connection, hm]
  | d :: rest, newd, cfg, evs, fresh, h, hm => by
    have hd : use_same_connection d cfg = false := h d (List.mem_cons_self d rest)
    have ih := add_connection_match_at_end rest newd cfg evs fresh
      (fun x hx => h x (List.mem_cons_of_mem d hx)) hm
    simp [add_connection, hd, ih]

/-- Claim C6: from a pool holding no session for the resolved connection of
channel 1, adding channel 1 (resolved configuration `c1`, fresh backend pid
`fresh1`) and then channel 2, whose resolved configuration agrees with `c1`
on hosts, dbname and user, creates exactly one new session: the first call
returns `fresh1`, the second call finds the session just created, issues
`LISTEN` for its own events on it and returns the same pid, and the pool
has grown by exactly one entry. -/
theorem C6_add_connection_idempotent
    (pool : List PgEventDispatcher) (c1 c2 : PgConfig) (evs1 evs2 : List String)
    (fresh1 fresh2 : Int)
    (hh : c1.hosts = c2.hosts) (hd : c1.dbname = c2.dbname) (hu : c1.user = c2.user)
    (hnew : ∀ d ∈ pool, use_same_connection d c1 = false) :
    add_connection pool c1 evs1 fresh1
      = (pool ++ [listenAll { config := c1, session_pid := fresh1, events := [] } evs1],
         fresh1)
    ∧ (add_connection (add_connection pool c1 evs1 fresh1).1 c2 evs2 fresh2).1
      = pool ++
          [listenAll (listenAll { config := c1, session_pid := fresh1, events := [] } evs1)
            evs2]
    ∧ (add_connection (add_connection pool c1 evs1 fresh1).1 c2 evs2 fresh2).2 = fresh1
    ∧ (add_connection (add_connection pool c1 evs1 fresh1).1 c2 evs2 fresh2).1.length
      = pool.length + 1 := by
  have h1 := add_connection_no_match pool c1 evs1 fresh1 hnew
  have hnew2 : ∀ d ∈ pool, use_same_connection d c2 = false := fun d hdm => by
    rw [← use_same_connection_congr d c1 c2 hh hd hu]
    exact hnew d hdm
  have hcfg := listenAll_config evs1 { config := c1, session_pid := fresh1, events := [] }
  have hmatch :
      use_same_connection
        (listenAll { config := c1, session_pid := fresh1, events := [] } evs1) c2 = true := by
    simp [use_same_connection, hcfg.1, hh, hd, hu]
  have h2 := add_connection_match_at_end pool
    (listenAll { config := c1, session_pid := fresh1, events := [] } evs1) c2 evs2 fresh2
    hnew2 hmatch
  rw [h1]
  refine ⟨rfl, ?_, ?_, ?_⟩
  · rw [h2]
  · rw [h2]
    exact hcfg.2
  · rw [h2]
    simp

/-- Witness for C6 at a concrete input: starting from the empty pool, adding
two channels that resolve to `(hosts db1, dbname shop, user app)` with
events `a` and `b` leaves a single session carrying both listens, and both
calls return pid 7. -/
theorem C6_add_connection_idempotent_witness :
    add_connection [] cfgPoolW ["a"] 7
      = ([listenAll { config := cfgPoolW, session_pid := 7, events := [] } ["a"]], 7)
    ∧ (add_connection (add_connection [] cfgPoolW ["a"] 7).1 cfgPoolW ["b"] 9).2 = 7
    ∧ (add_connection (add_connection [] cfgPoolW ["a"] 7).1 cfgPoolW ["b"] 9).1.length
      = 1 := by
  have h := C6_add_connection_idempotent [] cfgPoolW cfgPoolW ["a"] ["b"] 7 9 rfl rfl rfl
    (fun d hdm => absurd hdm (List.not_mem_nil d))
  exact ⟨h.1, h.2.2.1, by simpa using h.2.2.2⟩

theorem envPreserved_refl (a : PgConfig) : EnvPreserved a a :=
  ⟨fun _ => rfl, fun _ => rfl, fun _ => rfl, fun _ => rfl, fun _ => rfl, fun _ => rfl,
   fun _ => rfl, rfl⟩

theorem envPreserved_trans {a b c : PgConfig}
    (h1 : EnvPreserved a b) (h2 : EnvPreserved b c) : EnvPreserved a c := by
  obtain ⟨u1, p1, d1, o1, hs1, r1, t1, a1⟩ := h1
  obtain ⟨u2, p2, d2, o2, hs2, r2, t2, a2⟩ := h2
  refine ⟨?_, ?_, ?_, ?_, ?_, ?_, ?_, a2.trans a1⟩
  · intro hx
    have hb := u1 hx
    rw [u2 (by rw [hb]; exact hx)]
    exact hb
  · intro hx
    have hb := p1 hx
    rw [p2 (by rw [hb]; exact hx)]
    exact hb
  · intro hx
    have hb := d1 hx
    rw [d2 (by rw [hb]; exact hx)]
    exact hb
  · intro hx
    have hb := o1 hx
    rw [o2 (by rw [hb]; exact hx)]
    exact hb
  · intro hx
    have hb := hs1 hx
    rw [hs2 (by rw [hb]; exact hx)]
    exact hb
  · intro hx
    have hb := r1 hx
    rw [r2 (by rw [hb]; exact hx)]
    exact hb
  · intro hx
    have hb := t1 hx
    rw [t2 (by rw [hb]; exact hx)]
    exact hb

theorem set_parameter_env_preserves {cfg cfg' : PgConfig} {k v : String}
    (hk : k = "user" ∨ k = "password" ∨ k = "dbname" ∨ k = "options" ∨ k = "host" ∨
      k = "port" ∨ k = "connect_timeout" ∨ k = "application_name")
    (h : set_parameter cfg k v = .ok cfg') : EnvPreserved cfg cfg' := by
  rcases hk with rfl | rfl | rfl | rfl | rfl | rfl | rfl | rfl
  · have e : set_parameter cfg ("user") v
        = .ok (if cfg.user.isNone then { cfg with user := some v } else cfg) := rfl
    rw [e] at h
    injection h with h
    subst h
    by_cases hc : cfg.user.isNone
    · simp only [hc, if_pos]
      refine ⟨?_, fun _ => rfl, fun _ => rfl, fun _ => rfl, fun _ => rfl, fun _ => rfl,
        fun _ => rfl, rfl⟩
      intro hx
      rw [Option.isNone_iff_eq_none] at hc
      rw [hc] at hx
      cases hx
    · simp only [hc, if_neg]
      exact envPreserved_refl cfg
  · have e : set_parameter cfg ("password") v
        = .ok (if cfg.password.isNone then { cfg with password := some v } else cfg) := rfl
    rw [e] at h
    injection h with h
    subst h
    by_cases hc : cfg.password.isNone
    · simp only [hc, if_pos]
      refine ⟨fun _ => rfl, ?_, fun _ => rfl, fun _ => rfl, fun _ => rfl, fun _ => rfl,
        fun _ => rfl, rfl⟩
      intro hx
      rw [Option.isNone_iff_eq_none] at hc
      rw [hc] at hx
      cases hx
    · simp only [hc, if_neg]
      exact envPreserved_refl cfg
  · have e : set_parameter cfg ("dbname") v
        = .ok (if cfg.dbname.isNone then { cfg with dbname := some v } else cfg) := rfl
    rw [e] at h
    injection h with h
    subst h
    by_cases hc : cfg.dbname.isNone
    · simp only [hc, if_pos]
      refine ⟨fun _ => rfl, fun _ => rfl, ?_, fun _ => rfl, fun _ => rfl, fun _ => rfl,
        fun _ => rfl, rfl⟩
      intro hx
      rw [Option.isNone_iff_eq_none] at hc
      rw [hc] at hx
      cases hx
    · simp only [hc, if_neg]
      exact envPreserved_refl cfg
  · have e : set_parameter cfg ("options") v
        = .ok (if cfg.options.isNone then { cfg with options := some v } else cfg) := rfl
    rw [e] at h
    injection h with h
    subst h
    by_cases hc : cfg.options.isNone
    · simp only [hc, if_pos]
      refine ⟨fun _ => rfl, fun _ => rfl, fun _ => rfl, ?_, fun _ => rfl, fun _ => rfl,
        fun _ => rfl, rfl⟩
      intro hx
      rw [Option.isNone_iff_eq_none] at hc
      rw [hc] at hx
      cases hx
    · simp only [hc, if_neg]
      exact envPreserved_refl cfg
  · have e : set_parameter cfg ("host") v
        = .ok (if cfg.hosts.isEmpty then { cfg with hosts := [v] } else cfg) := rfl
    rw [e] at h
    injection h with h
    subst h
    by_cases hc : cfg.hosts.isEmpty
    · simp only [hc, if_pos]
      refine ⟨fun _ => rfl, fun _ => rfl, fun _ => rfl, fun _ => rfl, ?_, fun _ => rfl,
        fun _ => rfl, rfl⟩
      intro hx
      rw [List.isEmpty_iff] at hc
      exact absurd hc hx
    · simp only [hc, if_neg]
      exact envPreserved_refl cfg
  · by_cases hc : cfg.ports.isEmpty
    · have e : set_parameter cfg ("port") v
          = (match parseDecimal v with
             | some p => .ok { cfg with ports := [p] }
             | none => .error ("InvalidPort: " ++ v)) := by
        simp [set_parameter, hc]
      rw [e] at h
      cases ht : parseDecimal v with
      | some p =>
        rw [ht] at h
        injection h with h
        subst h
        refine ⟨fun _ => rfl, fun _ => rfl, fun _ => rfl, fun _ => rfl, fun _ => rfl, ?_,
          fun _ => rfl, rfl⟩
        intro hx
        rw [List.isEmpty_iff] at hc
        exact absurd hc hx
      | none =>
        rw [ht] at h
        cases h
    · have e : set_parameter cfg ("port") v = .ok cfg := by
        simp [set_parameter, hc]
      rw [e] at h
      injection h with h
      subst h
      exact envPreserved_refl cfg
  · by_cases hc : cfg.connect_timeout.isNone
    · have e : set_parameter cfg ("connect_timeout") v
          = (match parseDecimal v with
             | some secs => .ok { cfg with connect_timeout := some secs }
             | none => .error ("InvalidConnectTimeout: " ++ v)) := by
        simp [set_parameter, hc]
      rw [e] at h
      cases ht : parseDecimal v with
      | some secs =>
        rw [ht] at h
        injection h with h
        subst h
        refine ⟨fun _ => rfl, fun _ => rfl, fun _ => rfl, fun _ => rfl, fun _ => rfl,
          fun _ => rfl, ?_, rfl⟩
        intro hx
        rw [Option.isNone_iff_eq_none] at hc
        rw [hc] at hx
        cases hx
      | none =>
        rw [ht] at h
        cases h
    · have e : set_parameter cfg ("connect_timeout") v = .ok cfg := by
        simp [set_parameter, hc]
      rw [e] at h
      injection h with h
      subst h
      exact envPreserved_refl cfg
  · have e : set_parameter cfg ("application_name") v = .ok cfg := rfl
    rw [e] at h
    injection h with h
    subst h
    exact envPreserved_refl cfg

theorem load_env_aux :
    ∀ (l : List (String × String)),
      (∀ p ∈ l, p.2 = "user" ∨ p.2 = "password" ∨ p.2 = "dbname" ∨ p.2 = "options" ∨
        p.2 = "host" ∨ p.2 = "port" ∨ p.2 = "connect_timeout" ∨
        p.2 = "application_name") →
      ∀ (env : String → Option String) (cfg cfg' : PgConfig),
        l.foldlM
          (fun c p =>
            match env p.1 with
            | some v => set_parameter c p.2 v
            | none => .ok c)
          cfg = .ok cfg' →
        EnvPreserved cfg cfg'
  | [], _, env, cfg, cfg', h => by
    have h' : (Except.ok cfg : Except String PgConfig) = .ok cfg' := h
    injection h' with h'
    subst h'
    exact envPreserved_refl cfg
  | p :: rest, hkeys, env, cfg, cfg', h => by
    rw [List.foldlM_cons] at h
    cases henv : env p.1 with
    | none =>
      rw [henv] at h
      exact load_env_aux rest (fun x hx => hkeys x (List.mem_cons_of_mem p hx)) env cfg cfg'
        (by exact h)
    | some v =>
      rw [henv] at h
      have hb : (set_parameter cfg p.2 v >>= fun init =>
          List.foldlM
            (fun c q =>
              match env q.1 with
              | some w => set_parameter c q.2 w
              | none => .ok c)
            init rest) = Except.ok cfg' := h
      cases hstep : set_parameter cfg p.2 v with
      | error e =>
        rw [hstep] at hb
        have h' : (Except.error e : Except String PgConfig) = .ok cfg' := hb
        cases h'
      | ok mid =>
        rw [hstep] at hb
        have h1 := set_parameter_env_preserves (hkeys p (List.mem_cons_self p rest)) hstep
        have h2 := load_env_aux rest (fun x hx => hkeys x (List.mem_cons_of_mem p hx)) env
          mid cfg' (by exact hb)
        exact envPreserved_trans h1 h2

/-- Claim C7: loading from the environment never overwrites a connection
field that the connection string or the service file already set (for each
of PGHOST, PGPORT, PGDATABASE, PGUSER, PGOPTIONS, PGAPPNAME,
PGCONNECT_TIMEOUT), whereas the service-file keys `sslmode`, `keepalives`,
`keepalives_idle` and `channel_binding` always overwrite the current value
through `set_parameter`. -/
theorem C7_env_no_overwrite_and_service_overwrites :
    (∀ (env : String → Option String) (cfg cfg' : PgConfig),
      load_config_from_env env cfg = .ok cfg' → EnvPreserved cfg cfg')
    ∧ (∀ (cfg : PgConfig) (v : String) (m : SslMode),
      parse_ssl_mode v = .ok m →
        set_parameter cfg ("sslmode") v = .ok { cfg with ssl_mode := m })
    ∧ (∀ cfg : PgConfig,
      set_parameter cfg ("keepalives") ("1") = .ok { cfg with keepalives := true })
    ∧ (∀ cfg : PgConfig,
      set_parameter cfg ("keepalives") ("0") = .ok { cfg with keepalives := false })
    ∧ (∀ (cfg : PgConfig) (v : String) (n : Nat),
      parseDecimal v = some n →
        set_parameter cfg ("keepalives_idle") v = .ok { cfg with keepalives_idle := n })
    ∧ (∀ (cfg : PgConfig) (v : String) (m : ChannelBindingMode),
      parse_channel_binding v = .ok m →
        set_parameter cfg ("channel_binding") v = .ok { cfg with channel_binding := m }) := by
  refine ⟨?_, ?_, fun cfg => rfl, fun cfg => rfl, ?_, ?_⟩
  · intro env cfg cfg' h
    exact load_env_aux envTable (by decide) env cfg cfg' h
  · intro cfg v m hm
    have e : set_parameter cfg ("sslmode") v
        = (parse_ssl_mode v).map (fun m => { cfg with ssl_mode := m }) := rfl
    rw [e, hm]
    rfl
  · intro cfg v n hn
    have e : set_parameter cfg ("keepalives_idle") v
        = (match parseDecimal v with
           | some secs => .ok { cfg with keepalives_idle := secs }
           | none => .error ("InvalidKeepalivesIdle: " ++ v)) := rfl
    rw [e, hn]
  · intro cfg v m hm
    have e : set_parameter cfg ("channel_binding") v
        = (parse_channel_binding v).map (fun m => { cfg with channel_binding := m }) := rfl
    rw [e, hm]
    rfl

/-- Witness for C7 at a concrete input: on a configuration with every
environment-settable field already set, an environment defining PGHOST and
PGUSER leaves the configuration untouched, while the service keys
`sslmode`, `keepalives_idle` and `channel_binding` overwrite their set
fields. -/
theorem C7_env_no_overwrite_and_service_overwrites_witness :
    EnvPreserved cfgAllSetW cfgAllSetW
    ∧ set_parameter cfgAllSetW ("sslmode") ("require")
      = .ok { cfgAllSetW with ssl_mode := .require }
    ∧ set_parameter cfgAllSetW ("keepalives_idle") ("30")
      = .ok { cfgAllSetW with keepalives_idle := 30 }
    ∧ set_parameter cfgAllSetW ("channel_binding") ("require")
      = .ok { cfgAllSetW with channel_binding := .require } :=
  ⟨C7_env_no_overwrite_and_service_overwrites.1 envW cfgAllSetW cfgAllSetW (by rfl),
   C7_env_no_overwrite_and_service_overwrites.2.1 cfgAllSetW ("require") .require rfl,
   C7_env_no_overwrite_and_service_overwrites.2.2.2.2.1 cfgAllSetW ("30") 30 (by rfl),
   C7_env_no_overwrite_and_service_overwrites.2.2.2.2.2 cfgAllSetW ("require") .require rfl⟩

theorem sendOk_of_mem_failedIdents {subs : Subs} {evch : List Nat} {sendOk : Nat → Bool}
    {i : Nat} (h : i ∈ failedIdents subs evch sendOk) : sendOk i = false := by
  simp only [failedIdents, List.mem_map, List.mem_filter] at h
  obtain ⟨ch, ⟨_, hf⟩, rfl⟩ := h
  simpa using hf

theorem mem_failedIdents {subs : Subs} {evch : List Nat} {sendOk : Nat → Bool}
    {cl : Client} {c : Nat} (h1 : cl ∈ subs c) (h2 : c ∈ evch)
    (h3 : sendOk cl.ident = false) : cl.ident ∈ failedIdents subs evch sendOk := by
  simp only [failedIdents, List.mem_map, List.mem_filter, List.mem_flatMap]
  exact ⟨cl, ⟨⟨c, h2, h1⟩, by simp [h3]⟩, rfl⟩

/-- Claim C4: over one broadcast cycle, a client present in bucket `c` whose
send succeeded is still in bucket `c` afterwards; a client of a bucket
listed by the event whose send failed (and who is not among the newly
pending clients) is absent afterwards; the pending list is emptied and each
pending client ends up in the bucket of its chan id. -/
theorem C4_broadcast_cycle_membership
    (subs : Subs) (pending : List Client) (evch : List Nat) (sendOk : Nat → Bool)
    (cl : Client) (c : Nat) :
    (cl ∈ subs c → sendOk cl.ident = true →
      cl ∈ (broadcastCycle subs pending evch sendOk).1 c)
    ∧ (cl ∈ subs c → c ∈ evch → sendOk cl.ident = false → cl ∉ pending →
      cl ∉ (broadcastCycle subs pending evch sendOk).1 c)
    ∧ (broadcastCycle subs pending evch sendOk).2 = []
    ∧ (cl ∈ pending → cl ∈ (broadcastCycle subs pending evch sendOk).1 cl.id) := by
  refine ⟨?_, ?_, rfl, ?_⟩
  · intro hmem hok
    show cl ∈ broadcast_event subs evch sendOk c ++ pending.filter (fun ch => ch.id == c)
    apply List.mem_append_left
    unfold broadcast_event
    by_cases hE : (failedIdents subs evch sendOk).isEmpty
    · simp only [hE, if_pos]
      exact hmem
    · simp only [hE, if_neg, Bool.false_eq_true, not_false_iff]
      by_cases hc : evch.contains c
      · simp only [hc, if_pos]
        refine List.mem_filter.mpr ⟨hmem, ?_⟩
        have hnot : cl.ident ∉ failedIdents subs evch sendOk := fun hmemF => by
          rw [sendOk_of_mem_failedIdents hmemF] at hok
          cases hok
        simpa using hnot
      · simp only [hc, if_neg, Bool.false_eq_true, not_false_iff]
        exact hmem
  · intro hmem hcev hfail hpend
    have hfI : cl.ident ∈ failedIdents subs evch sendOk := mem_failedIdents hmem hcev hfail
    have hne : (failedIdents subs evch sendOk).isEmpty = false := by
      cases hEE : (failedIdents subs evch sendOk).isEmpty
      · rfl
      · rw [List.isEmpty_iff.mp hEE] at hfI
        cases hfI
    intro hIn
    have hIn' :
        cl ∈ broadcast_event subs evch sendOk c ++ pending.filter (fun ch => ch.id == c) :=
      hIn
    rcases List.mem_append.mp hIn' with hL | hR
    · unfold broadcast_event at hL
      have hcc : evch.contains c = true := by simpa using hcev
      simp only [hne, Bool.false_eq_true, if_neg, not_false_iff, hcc, if_pos] at hL
      have := (List.mem_filter.mp hL).2
      simp at this
      exact this hfI
    · exact hpend (List.mem_filter.mp hR).1
  · intro hp
    show cl ∈ broadcast_event subs evch sendOk cl.id ++ pending.filter (fun ch => ch.id == cl.id)
    apply List.mem_append_right
    exact List.mem_filter.mpr ⟨hp, by simp⟩

/-- Witness for C4 at a concrete input: bucket 0 holds clients with idents 1
and 2, the send to ident 2 fails, client with ident 3 is pending for bucket
1; after the cycle on an event listing bucket 0, ident 1 survived, ident 2
was reaped, the pending list is empty and ident 3 sits in bucket 1. -/
theorem C4_broadcast_cycle_membership_witness :
    ({ id := 0, ident := 1 } : Client) ∈ (broadcastCycle subsW pendW [0] okW).1 0
    ∧ ({ id := 0, ident := 2 } : Client) ∉ (broadcastCycle subsW pendW [0] okW).1 0
    ∧ (broadcastCycle subsW pendW [0] okW).2 = []
    ∧ ({ id := 1, ident := 3 } : Client) ∈ (broadcastCycle subsW pendW [0] okW).1 1 := by
  have h1 := C4_broadcast_cycle_membership subsW pendW [0] okW { id := 0, ident := 1 } 0
  have h2 := C4_broadcast_cycle_membership subsW pendW [0] okW { id := 0, ident := 2 } 0
  have h3 := C4_broadcast_cycle_membership subsW pendW [0] okW { id := 1, ident := 3 } 1
  exact ⟨h1.1 (by decide) rfl,
         h2.2.1 (by decide) (by decide) rfl (by decide),
         h1.2.2.1,
         h3.2.2.2 (by decide)⟩

end PgEventServer
